import Mathlib

/-! # Verification of the three-way tree merge engine (src/src/utils/mergeTree.js)

Shallow embedding of the merge-decision and tree-rebuilding engine:

* A `WalkerEntry` models a *present* entry supplied by the external tree walker;
  absence (JS `null`/`undefined`) is `Option`.  The lazily-resolved accessors
  `mode()`, `oid()`, `type()`, `content()` and the `_fullpath` property are
  modelled as fields (`content = none` models a content read that throws and is
  recovered to the empty string, as in the source's try/catch blocks).
* External collaborators are parameters: the content-addressed hash `H`, the
  textual three-way merge `mf` (mergeFile), the caller-supplied conflict
  resolver, and the tree serialization `tto` (GitTree#toObject).
* Thrown JS errors become `Except` errors; dereferencing an absent entry
  (a JS `TypeError`) is the `typeError` constructor.
* Persistence is made observable: every `writeObject` that is not suppressed by
  a truthy `dryRun` is logged in a `writes` list, and every invocation of the
  external mergeFile is logged in a `calls` list.
-/

namespace MergeTreeModel

/-- A present walker entry at one path of one of the three trees.  `type` is
"blob" or "tree"; `content = none` models a failing content accessor. -/
structure WalkerEntry where
  mode : String
  oid : String
  type : String
  content : Option String
  fullpath : String
  deriving DecidableEq, Repr

/-- A result entry, the shape returned by the map callback and consumed by the
reduce callback.  `mode` is `Option` because the source's final blob return
uses `ourMode ?? theirMode`, which is null when both sides are absent. -/
structure Entry where
  mode : Option String
  path : String
  oid : String
  type : String
  deriving DecidableEq, Repr

/-- Errors escaping the map callback or mergeBlobs.  `typeError` models the JS
`TypeError` raised by dereferencing a null entry. -/
inductive MergeError where
  | notSupported
  | aborted
  | typeError
  deriving DecidableEq, Repr

/-- Record of one non-suppressed `writeObject` persistence to the object store. -/
structure ObjWrite where
  otype : String
  object : String
  deriving DecidableEq, Repr

/-- The argument record handed to the external mergeFile (TextMerger). -/
structure MergeFileArgs where
  ourContent : String
  baseContent : String
  theirContent : String
  ourName : Option String
  theirName : Option String
  baseName : Option String
  format : Option String
  markerSize : Option Nat
  deriving DecidableEq, Repr

/-- The record returned by the external mergeFile. -/
structure MergeFileResult where
  mergedText : String
  cleanMerge : Bool
  deriving DecidableEq, Repr

/-- Outcome of one invocation of the caller-supplied asyncMergeConflictCallback:
it either returns a (possibly null/empty) text or throws with a message. -/
inductive ResolverOutcome where
  | returns (text : Option String)
  | throws (message : String)
  deriving DecidableEq, Repr

/-- JS truthiness of a possibly-null string (`!awaitedMergedText`, `!!baseMode`). -/
def truthyOptStr : Option String → Bool
  | some s => s != ""
  | none => false

/-- JS truthiness of a possibly-undefined boolean (the `dryRun` parameter of
mergeBlobs, which none of its call sites supplies). -/
def truthyOptBool : Option Bool → Bool
  | some b => b
  | none => false

/-- Observable output of mergeBlobs and of the map callback: the JS return value
or thrown error, the objects persisted on the way, and the mergeFile
invocations made on the way. -/
structure MBOut where
  result : Except MergeError (Option Entry)
  writes : List ObjWrite
  calls : List MergeFileArgs
  deriving Repr

/-- The change detector `modified(entry, base)` (src lines 230-245), translated
clause by clause from the source. -/
def modified : Option WalkerEntry → Option WalkerEntry → Bool
  | none, none => false
  | some _, none => true
  | none, some _ => true
  | some e, some b =>
    if e.type = "tree" ∧ b.type = "tree" then false
    else if e.type = b.type ∧ e.mode = b.mode ∧ e.oid = b.oid then false
    else true

/-- Modelled from the spec: `_writeObject` (src/storage/writeObject.js is not
under src/).  The spec's ObjectStore contract: a deterministic content-addressed
write `writeObject({type, bytes, dryRun}) → oid`; dry-run "computes but does not
persist".  `H` is the content hash; the persisted write is logged when not
suppressed. -/
def writeObject (H : String → String → String) (otype object : String)
    (dryRun : Bool) : String × List ObjWrite :=
  (H otype object, if dryRun then [] else [⟨otype, object⟩])

/-- Content resolution with the try/catch of src lines 307-323: reading content
of an absent entry, or a failing content accessor, yields the empty string. -/
def readContent : Option WalkerEntry → String
  | none => ""
  | some w => w.content.getD ""

/-- The argument record built for mergeFile inside mergeBlobs (src lines
324-333), from the three (possibly absent) sides and the passed-through names. -/
def blobMergeArgs (ours base theirs : Option WalkerEntry)
    (ourName theirName baseName : Option String)
    (format : Option String) (markerSize : Option Nat) : MergeFileArgs :=
  { ourContent := readContent ours
    baseContent := readContent base
    theirContent := readContent theirs
    ourName := ourName
    theirName := theirName
    baseName := baseName
    format := format
    markerSize := markerSize }

/-- Fullpath recovery of src lines 339-346: `base._fullpath` throws when base is
null, in which case `ours?._fullpath || theirs._fullpath` runs in the inner
catch; if that itself dereferences a null `theirs`, the TypeError escapes to the
outer handler whose non-abort arm is MergeNotSupportedError. -/
def resolveFullpath (base ours theirs : Option WalkerEntry) :
    Except MergeError String :=
  match base with
  | some b => .ok b.fullpath
  | none =>
    match ours with
    | some o =>
      if o.fullpath != "" then .ok o.fullpath
      else
        match theirs with
        | some t => .ok t.fullpath
        | none => .error .notSupported
    | none =>
      match theirs with
      | some t => .ok t.fullpath
      | none => .error .notSupported

/-- The tail of mergeBlobs after the trivial shortcuts (src lines 306-368): read
the three contents, invoke mergeFile, on an unclean merge consult the resolver
(empty/falsy resolution deletes the file, a throw maps to aborted for the
message "Aborted merge" and to notSupported otherwise), then write the blob with
mergeBlobs' own `dryRun` argument and return mode `ourMode ?? theirMode`. -/
def mergeBlobsRest (mf : MergeFileArgs → MergeFileResult)
    (resolver : String → String → ResolverOutcome)
    (H : String → String → String) (path : String)
    (ours base theirs : Option WalkerEntry)
    (ourName theirName baseName : Option String)
    (format : Option String) (markerSize : Option Nat)
    (dryRun : Option Bool) : MBOut :=
  let args := blobMergeArgs ours base theirs ourName theirName baseName format markerSize
  let r := mf args
  let finish : String → MBOut := fun text =>
    let w := writeObject H "blob" text (truthyOptBool dryRun)
    { result := .ok (some { mode := (ours.map WalkerEntry.mode) <|> (theirs.map WalkerEntry.mode)
                            path := path
                            oid := w.1
                            type := "blob" })
      writes := w.2
      calls := [args] }
  if r.cleanMerge then finish r.mergedText
  else
    match resolveFullpath base ours theirs with
    | .error e => { result := .error e, writes := [], calls := [args] }
    | .ok fullpath =>
      match resolver r.mergedText fullpath with
      | .throws msg =>
        { result := .error (if msg = "Aborted merge" then .aborted else .notSupported)
          writes := []
          calls := [args] }
      | .returns txt =>
        if truthyOptStr txt then finish (txt.getD "")
        else { result := .ok none, writes := [], calls := [args] }

/-- mergeBlobs (src lines 265-369).  The guard `!!baseMode && !!ourMode &&
!!theirMode` holds exactly when all three entries are present with nonempty mode
strings; under it the merged mode is theirs' when base and ours agree on mode
and ours' otherwise, and the three trivial oid shortcuts return without invoking
mergeFile or writing any object.  Otherwise execution falls through to
`mergeBlobsRest`. -/
def mergeBlobs (mf : MergeFileArgs → MergeFileResult)
    (resolver : String → String → ResolverOutcome)
    (H : String → String → String) (path : String)
    (ours base theirs : Option WalkerEntry)
    (ourName theirName baseName : Option String)
    (format : Option String) (markerSize : Option Nat)
    (dryRun : Option Bool) : MBOut :=
  match ours, base, theirs with
  | some o, some b, some t =>
    if o.mode ≠ "" ∧ b.mode ≠ "" ∧ t.mode ≠ "" then
      let mode := if b.mode = o.mode then t.mode else o.mode
      if o.oid = t.oid then
        { result := .ok (some { mode := some mode, path := path, oid := o.oid, type := "blob" })
          writes := [], calls := [] }
      else if o.oid = b.oid then
        { result := .ok (some { mode := some mode, path := path, oid := t.oid, type := "blob" })
          writes := [], calls := [] }
      else if t.oid = b.oid then
        { result := .ok (some { mode := some mode, path := path, oid := o.oid, type := "blob" })
          writes := [], calls := [] }
      else
        mergeBlobsRest mf resolver H path (some o) (some b) (some t)
          ourName theirName baseName format markerSize dryRun
    else
      mergeBlobsRest mf resolver H path (some o) (some b) (some t)
        ourName theirName baseName format markerSize dryRun
  | _, _, _ =>
    mergeBlobsRest mf resolver H path ours base theirs
      ourName theirName baseName format markerSize dryRun

/-- Bool predicate: mergeBlobs returns through one of its three trivial
shortcuts (all sides present, all modes nonempty, and some pair of the three
oids equal). -/
def trivialShortcutTaken :
    Option WalkerEntry → Option WalkerEntry → Option WalkerEntry → Bool
  | some o, some b, some t =>
    (o.mode != "" && b.mode != "" && t.mode != "") &&
      (o.oid == t.oid || o.oid == b.oid || t.oid == b.oid)
  | _, _, _ => false

/-- Structurally recursive accumulator for `basename`: keeps the characters
seen since the most recent separator. -/
def basenameAux : List Char → List Char → List Char
  | cur, [] => cur
  | cur, c :: cs => if c = '/' then basenameAux [] cs else basenameAux (cur ++ [c]) cs

/-- Modelled from the spec: `basename` (src/utils/basename.js is not under
src/).  The spec's data model says a result entry's path is the "name component
(not full path)", i.e. the part of the walked filepath after the last
separator. -/
def basename (filepath : String) : String :=
  String.mk (basenameAux [] filepath.toList)

/-- The map callback of mergeTree (src lines 61-192).  The enclosing mergeTree's
`dryRun` is in scope but the closure never forwards it to mergeBlobs (every
mergeBlobs call site omits the dryRun argument, modelled as `none`), and only
the full three-way call site (all sides present and blobs) passes `baseName`.
The branch structure, including the short-circuit dereferences of the
"both changed" else-if chain, follows the source; the source's unreachable
`default` switch arm has no counterpart because the scrutinee pair is already
exhaustive over booleans. -/
def mapEntry (dryRun : Bool) (mf : MergeFileArgs → MergeFileResult)
    (resolver : String → String → ResolverOutcome)
    (H : String → String → String) (filepath : String)
    (ours base theirs : Option WalkerEntry)
    (ourName baseName theirName : Option String) : MBOut :=
  let path := basename filepath
  match modified ours base, modified theirs base with
  | false, false =>
    match base with
    | some b =>
      { result := .ok (some { mode := some b.mode, path := path, oid := b.oid, type := b.type })
        writes := [], calls := [] }
    | none => { result := .error .typeError, writes := [], calls := [] }
  | false, true =>
    match theirs with
    | some t =>
      { result := .ok (some { mode := some t.mode, path := path, oid := t.oid, type := t.type })
        writes := [], calls := [] }
    | none => { result := .ok none, writes := [], calls := [] }
  | true, false =>
    match ours with
    | some o =>
      { result := .ok (some { mode := some o.mode, path := path, oid := o.oid, type := o.type })
        writes := [], calls := [] }
    | none => { result := .ok none, writes := [], calls := [] }
  | true, true =>
    match ours, base, theirs with
    | some o, some b, some t =>
      if o.type = "blob" ∧ b.type = "blob" ∧ t.type = "blob" then
        mergeBlobs mf resolver H path (some o) (some b) (some t)
          ourName theirName baseName none none none
      else { result := .error .notSupported, writes := [], calls := [] }
    | some o, none, theirsOpt =>
      if o.type = "blob" then
        match theirsOpt with
        | some t =>
          if t.type = "blob" then
            mergeBlobs mf resolver H path (some o) none (some t)
              ourName theirName none none none none
          else { result := .error .notSupported, writes := [], calls := [] }
        | none => { result := .error .typeError, writes := [], calls := [] }
      else if o.type = "tree" then
        match theirsOpt with
        | some t =>
          if t.type = "tree" then
            { result := .ok (some { mode := some o.mode, path := path, oid := o.oid, type := o.type })
              writes := [], calls := [] }
          else { result := .error .notSupported, writes := [], calls := [] }
        | none => { result := .error .typeError, writes := [], calls := [] }
      else { result := .error .notSupported, writes := [], calls := [] }
    | none, none, _ => { result := .error .typeError, writes := [], calls := [] }
    | none, some _, none => { result := .ok none, writes := [], calls := [] }
    | some o, some b, none =>
      if o.type = "blob" then
        mergeBlobs mf resolver H path (some o) (some b) none
          ourName theirName none none none none
      else { result := .error .notSupported, writes := [], calls := [] }
    | none, some b, some t =>
      if t.type = "blob" then
        mergeBlobs mf resolver H path none (some b) (some t)
          ourName theirName none none none none
      else { result := .error .notSupported, writes := [], calls := [] }

/-- The reduce callback of mergeTree (src lines 197-219): drop absent children,
propagate an absent parent, prune a tree parent whose surviving child list is
empty, and otherwise serialize the children (the external GitTree#toObject is
the parameter `tto`), write the tree object honoring mergeTree's `dryRun`, and
update the parent's oid. -/
def reduce (H : String → String → String) (tto : List Entry → String)
    (dryRun : Bool) (parent : Option Entry) (children : List (Option Entry)) :
    Option Entry × List ObjWrite :=
  let entries := children.filterMap id
  match parent with
  | none => (none, [])
  | some p =>
    if p.type = "tree" ∧ entries = [] then (none, [])
    else if entries ≠ [] then
      let w := writeObject H "tree" (tto entries) dryRun
      (some { p with oid := w.1 }, w.2)
    else (some p, [])

/-! Concrete collaborators and entries used in the closed witness and
counterexample statements. -/

/-- A concrete deterministic content hash standing in for SHA-1. -/
def H0 : String → String → String := fun otype object => otype ++ ":" ++ object

/-- A concrete tree serialization standing in for GitTree#toObject. -/
def tto0 : List Entry → String := fun es => String.join (es.map fun e => e.oid ++ ";")

/-- A mergeFile stub that always reports a clean merge with empty text. -/
def mf0 : MergeFileArgs → MergeFileResult := fun _ => { mergedText := "", cleanMerge := true }

/-- A mergeFile stub that always reports a clean merge with text "ABC". -/
def mfClean : MergeFileArgs → MergeFileResult := fun _ => { mergedText := "ABC", cleanMerge := true }

/-- A mergeFile stub that always reports a conflict, with marker text built
from the two sides. -/
def mfConf : MergeFileArgs → MergeFileResult :=
  fun a => { mergedText := a.ourContent ++ "|" ++ a.theirContent, cleanMerge := false }

/-- A resolver that returns the conflict text unchanged. -/
def res0 : String → String → ResolverOutcome := fun text _ => .returns (some text)

/-- A resolver that resolves every conflict to the empty string (delete). -/
def resEmpty : String → String → ResolverOutcome := fun _ _ => .returns (some "")

/-- A resolver that throws the deliberate-abort message. -/
def resAbort : String → String → ResolverOutcome := fun _ _ => .throws "Aborted merge"

/-- A resolver that throws with an unrelated message. -/
def resBoom : String → String → ResolverOutcome := fun _ _ => .throws "boom"

/-- Base-side blob: mode 100644, oid b0, content "A\n". -/
def wBaseBlob : WalkerEntry :=
  { mode := "100644", oid := "b0", type := "blob", content := some "A\n", fullpath := "f" }

/-- Our-side blob: mode 100644, oid o1, content "A\nB\n". -/
def wOursBlob : WalkerEntry :=
  { mode := "100644", oid := "o1", type := "blob", content := some "A\nB\n", fullpath := "f" }

/-- Their-side blob: mode 100644, oid t1, content "A\nC\n". -/
def wTheirsBlob : WalkerEntry :=
  { mode := "100644", oid := "t1", type := "blob", content := some "A\nC\n", fullpath := "f" }

/-- Our-side directory entry (type tree). -/
def wOursDir : WalkerEntry :=
  { mode := "040000", oid := "d1", type := "tree", content := none, fullpath := "f" }

/-- Their-side blob with executable mode 100755 and the same oid as wOursBlob. -/
def wTheirsExec : WalkerEntry :=
  { mode := "100755", oid := "o1", type := "blob", content := some "A\nB\n", fullpath := "f" }

/-- Their-side blob with executable mode 100755 and a content change of its own. -/
def wTheirsExecConf : WalkerEntry :=
  { mode := "100755", oid := "t1", type := "blob", content := some "A\nC\n", fullpath := "f" }

/-- A tree-typed result entry used as a reduce parent. -/
def c4parent : Entry := { mode := some "040000", path := "d", oid := "old", type := "tree" }

/-- A blob-typed result entry used as a reduce child. -/
def c4child : Entry := { mode := some "100644", path := "f", oid := "o1", type := "blob" }

/-- The static `code` MergeNotSupportedError carries after the module-level
statement `MergeNotSupportedError.code = 'MergeAbortedError'` at the bottom of
the MergeAbortedError source file (src part after mergeTree.js, last line). -/
def mergeNotSupportedStaticCode : String := "MergeAbortedError"

/-- The code string intended for MergeAbortedError, per the JSDoc annotation
`@type {'MergeAbortedError'}` attached to that same statement. -/
def mergeAbortedIntendedCode : String := "MergeAbortedError"

/-! ## Helper lemmas -/

/-- When no trivial shortcut applies, mergeBlobs is its fallback tail. -/
theorem mergeBlobs_eq_rest (mf : MergeFileArgs → MergeFileResult)
    (resolver : String → String → ResolverOutcome)
    (H : String → String → String) (path : String)
    (ours base theirs : Option WalkerEntry)
    (ourName theirName baseName : Option String)
    (format : Option String) (markerSize : Option Nat) (dryRun : Option Bool)
    (h : trivialShortcutTaken ours base theirs = false) :
    mergeBlobs mf resolver H path ours base theirs ourName theirName baseName
        format markerSize dryRun
      = mergeBlobsRest mf resolver H path ours base theirs ourName theirName
          baseName format markerSize dryRun := by
  rcases ours with _ | o <;> rcases base with _ | b <;> rcases theirs with _ | t <;>
    try rfl
  simp only [trivialShortcutTaken, Bool.and_eq_false_iff, bne_eq_false_iff_eq,
    Bool.or_eq_false_iff, beq_eq_false_iff_ne] at h
  rcases h with ((h1 | h1) | h1) | ⟨⟨hd1, hd2⟩, hd3⟩
  · simp [mergeBlobs, h1]
  · simp [mergeBlobs, h1]
  · simp [mergeBlobs, h1]
  · by_cases hm : o.mode ≠ "" ∧ b.mode ≠ "" ∧ t.mode ≠ ""
    · simp [mergeBlobs, hm, hd1, hd2, hd3]
    · simp [mergeBlobs, hm]

/-- Every mergeFile invocation recorded by the fallback tail carries exactly the
argument record built from its inputs. -/
theorem mergeBlobsRest_calls (mf : MergeFileArgs → MergeFileResult)
    (resolver : String → String → ResolverOutcome)
    (H : String → String → String) (path : String)
    (ours base theirs : Option WalkerEntry)
    (ourName theirName baseName : Option String)
    (format : Option String) (markerSize : Option Nat) (dryRun : Option Bool) :
    (mergeBlobsRest mf resolver H path ours base theirs ourName theirName
        baseName format markerSize dryRun).calls
      = [blobMergeArgs ours base theirs ourName theirName baseName format markerSize] := by
  unfold mergeBlobsRest
  dsimp only
  split
  · rfl
  · split
    · rfl
    · split
      · rfl
      · split <;> rfl

/-- When a trivial shortcut is taken, mergeBlobs never invokes mergeFile. -/
theorem mergeBlobs_calls_of_trivial (mf : MergeFileArgs → MergeFileResult)
    (resolver : String → String → ResolverOutcome)
    (H : String → String → String) (path : String)
    (ours base theirs : Option WalkerEntry)
    (ourName theirName baseName : Option String)
    (format : Option String) (markerSize : Option Nat) (dryRun : Option Bool)
    (h : trivialShortcutTaken ours base theirs = true) :
    (mergeBlobs mf resolver H path ours base theirs ourName theirName baseName
        format markerSize dryRun).calls = [] := by
  rcases ours with _ | o <;> rcases base with _ | b <;> rcases theirs with _ | t <;>
    simp only [trivialShortcutTaken, Bool.and_eq_true, bne_iff_ne, Bool.or_eq_true,
      beq_iff_eq, Bool.false_eq_true] at h
  obtain ⟨⟨⟨hm1, hm2⟩, hm3⟩, hor⟩ := h
  unfold mergeBlobs
  dsimp only
  rw [if_pos ⟨hm1, hm2, hm3⟩]
  split
  · rfl
  · split
    · rfl
    · split
      · rfl
      · rename_i hn1 hn2 hn3
        rcases hor with (hc | hc) | hc
        · exact absurd hc hn1
        · exact absurd hc hn2
        · exact absurd hc hn3

/-- mergeBlobs either invokes mergeFile not at all or exactly once, with the
argument record built from its inputs. -/
theorem mergeBlobs_calls (mf : MergeFileArgs → MergeFileResult)
    (resolver : String → String → ResolverOutcome)
    (H : String → String → String) (path : String)
    (ours base theirs : Option WalkerEntry)
    (ourName theirName baseName : Option String)
    (format : Option String) (markerSize : Option Nat) (dryRun : Option Bool) :
    (mergeBlobs mf resolver H path ours base theirs ourName theirName baseName
        format markerSize dryRun).calls = []
    ∨ (mergeBlobs mf resolver H path ours base theirs ourName theirName baseName
        format markerSize dryRun).calls
      = [blobMergeArgs ours base theirs ourName theirName baseName format markerSize] := by
  cases h : trivialShortcutTaken ours base theirs with
  | true =>
    exact Or.inl (mergeBlobs_calls_of_trivial mf resolver H path ours base theirs
      ourName theirName baseName format markerSize dryRun h)
  | false =>
    rw [mergeBlobs_eq_rest mf resolver H path ours base theirs ourName theirName
      baseName format markerSize dryRun h]
    exact Or.inr (mergeBlobsRest_calls mf resolver H path ours base theirs
      ourName theirName baseName format markerSize dryRun)

/-- Any entry produced by the fallback tail carries mode `ourMode ?? theirMode`. -/
theorem mergeBlobsRest_mode (mf : MergeFileArgs → MergeFileResult)
    (resolver : String → String → ResolverOutcome)
    (H : String → String → String) (path : String)
    (ours base theirs : Option WalkerEntry)
    (ourName theirName baseName : Option String)
    (format : Option String) (markerSize : Option Nat) (dryRun : Option Bool)
    (e : Entry)
    (he : (mergeBlobsRest mf resolver H path ours base theirs ourName theirName
        baseName format markerSize dryRun).result = .ok (some e)) :
    e.mode = ((ours.map WalkerEntry.mode) <|> (theirs.map WalkerEntry.mode)) := by
  unfold mergeBlobsRest at he
  dsimp only at he
  split at he
  · simp only [Except.ok.injEq, Option.some.injEq] at he
    rw [← he]
  · split at he
    · exact absurd he (by simp)
    · split at he
      · exact absurd he (by simp)
      · split at he
        · simp only [Except.ok.injEq, Option.some.injEq] at he
          rw [← he]
        · exact absurd he (by simp)

/-! ## Claim theorems -/

/-- C5: the change detector `modified` returns false when both entries are
absent, true when exactly one is present, false when both are present and both
of type tree, false when both are present with the same type, same mode and
same oid, and true otherwise. -/
theorem C5_modified_spec (e b : WalkerEntry) :
    modified none none = false
    ∧ modified (some e) none = true
    ∧ modified none (some b) = true
    ∧ (e.type = "tree" ∧ b.type = "tree" → modified (some e) (some b) = false)
    ∧ (e.type = b.type ∧ e.mode = b.mode ∧ e.oid = b.oid →
        modified (some e) (some b) = false)
    ∧ (¬(e.type = "tree" ∧ b.type = "tree") →
        ¬(e.type = b.type ∧ e.mode = b.mode ∧ e.oid = b.oid) →
        modified (some e) (some b) = true) := by
  refine ⟨rfl, rfl, rfl, ?_, ?_, ?_⟩
  · intro h
    simp [modified, h]
  · intro h
    by_cases ht : e.type = "tree" ∧ b.type = "tree"
    · simp [modified, ht]
    · simp [modified, ht, h]
  · intro h1 h2
    simp [modified, h1, h2]

/-- C5 witness: the conditional clauses of `C5_modified_spec` evaluated at
concrete entries (tree-vs-tree is no change; tree-vs-blob is a change). -/
theorem C5_modified_spec_witness :
    modified (some wOursDir) (some wOursDir) = false
    ∧ modified (some wOursDir) (some wBaseBlob) = true := by
  constructor
  · exact (C5_modified_spec wOursDir wOursDir).2.2.2.1 ⟨rfl, rfl⟩
  · exact (C5_modified_spec wOursDir wBaseBlob).2.2.2.2.2 (by decide) (by decide)

/-- C10: whenever at least one of the three entries at a path is present and
neither side is modified relative to base, base itself is present, so the
pass-through branch returns base's mode, oid and type and never dereferences an
absent entry. -/
theorem C10_passthrough_safe (dryRun : Bool) (mf : MergeFileArgs → MergeFileResult)
    (resolver : String → String → ResolverOutcome) (H : String → String → String)
    (fp : String) (ours base theirs : Option WalkerEntry)
    (ourName baseName theirName : Option String)
    (hpres : ours.isSome ∨ base.isSome ∨ theirs.isSome)
    (h1 : modified ours base = false) (h2 : modified theirs base = false) :
    ∃ b, base = some b ∧
      mapEntry dryRun mf resolver H fp ours base theirs ourName baseName theirName
        = { result := .ok (some { mode := some b.mode, path := basename fp, oid := b.oid, type := b.type })
            writes := [], calls := [] } := by
  obtain ⟨b, hb⟩ : ∃ b, base = some b := by
    cases hbase : base with
    | some b => exact ⟨b, rfl⟩
    | none =>
      subst hbase
      cases ours with
      | some o => simp [modified] at h1
      | none =>
        cases theirs with
        | some t => simp [modified] at h2
        | none => simp at hpres
  subst hb
  refine ⟨b, rfl, ?_⟩
  simp [mapEntry, h1, h2]

/-- C10 witness: the identical-everywhere triple passes base through. -/
theorem C10_passthrough_safe_witness :
    mapEntry true mf0 res0 H0 "f" (some wBaseBlob) (some wBaseBlob) (some wBaseBlob)
        (some "ours") (some "base") (some "theirs")
      = { result := .ok (some { mode := some "100644", path := "f", oid := "b0", type := "blob" })
          writes := [], calls := [] } := by
  obtain ⟨b, hb, he⟩ := C10_passthrough_safe true mf0 res0 H0 "f" (some wBaseBlob)
    (some wBaseBlob) (some wBaseBlob) (some "ours") (some "base") (some "theirs")
    (Or.inl rfl) (by decide) (by decide)
  cases Option.some.inj hb
  rw [he]
  rfl

/-- C4: the reduce callback propagates an absent parent to the whole subtree
regardless of children; a tree-typed parent whose surviving child list is empty
becomes absent; and with no surviving children nothing at all is written to the
object store for that subtree, for any parent, so no empty tree object is ever
persisted. -/
theorem C4_reduce_pruning (H : String → String → String) (tto : List Entry → String)
    (dryRun : Bool) (children : List (Option Entry)) (p : Entry)
    (hT : p.type = "tree") (hE : children.filterMap id = []) :
    (∀ cs : List (Option Entry), reduce H tto dryRun none cs = (none, []))
    ∧ reduce H tto dryRun (some p) children = (none, [])
    ∧ (∀ q : Entry, (reduce H tto dryRun (some q) children).2 = []) := by
  refine ⟨fun cs => rfl, ?_, ?_⟩
  · simp [reduce, hE, hT]
  · intro q
    by_cases hq : q.type = "tree"
    · simp [reduce, hE, hq]
    · simp [reduce, hE, hq]

/-- C4 witness: concrete evaluation of the pruning clauses. -/
theorem C4_reduce_pruning_witness :
    reduce H0 tto0 false none [some c4child] = (none, [])
    ∧ reduce H0 tto0 false (some c4parent) [none, none] = (none, [])
    ∧ (reduce H0 tto0 false (some c4child) [none, none]).2 = [] := by
  obtain ⟨ha, hb, hc⟩ := C4_reduce_pruning H0 tto0 false [none, none] c4parent rfl rfl
  exact ⟨ha [some c4child], hb, hc c4child⟩

/-- C2 counterexample: at a path where base holds a blob, ours changed it to a
directory and theirs kept the identical blob, the map callback returns ours'
tree entry verbatim; it does not fail with MergeNotSupportedError. -/
theorem C2_counterexample :
    (mapEntry true mf0 res0 H0 "a" (some wOursDir) (some wBaseBlob) (some wBaseBlob)
        (some "ours") (some "base") (some "theirs")).result
      = .ok (some { mode := some "040000", path := "a", oid := "d1", type := "tree" })
    ∧ (Except.ok (some { mode := some "040000", path := "a", oid := "d1", type := "tree" }) :
        Except MergeError (Option Entry)) ≠ .error .notSupported := by
  exact ⟨rfl, by simp⟩

/-- C2 amended: for a path where base holds a blob, ours changed that path to a
tree and theirs left it unchanged as the identical blob, the decision is
ourChange true / theirChange false, so the engine takes ours' entry verbatim
(producing the directory entry) and raises no error. -/
theorem C2_amended (dryRun : Bool) (mf : MergeFileArgs → MergeFileResult)
    (resolver : String → String → ResolverOutcome) (H : String → String → String)
    (fp : String) (o b : WalkerEntry) (ourName baseName theirName : Option String)
    (hB : b.type = "blob") (hO : o.type = "tree") :
    mapEntry dryRun mf resolver H fp (some o) (some b) (some b) ourName baseName theirName
      = { result := .ok (some { mode := some o.mode, path := basename fp, oid := o.oid, type := o.type })
          writes := [], calls := [] } := by
  have h1 : modified (some o) (some b) = true := by
    simp [modified, hB, hO]
  have h2 : modified (some b) (some b) = false := by
    simp [modified]
  simp [mapEntry, h1, h2]

/-- C2 amended witness: the concrete blob-to-directory triple evaluated. -/
theorem C2_amended_witness :
    mapEntry false mfConf resBoom H0 "p" (some wOursDir) (some wBaseBlob) (some wBaseBlob)
        (some "ours") (some "base") (some "theirs")
      = { result := .ok (some { mode := some "040000", path := "p", oid := "d1", type := "tree" })
          writes := [], calls := [] } := by
  have h := C2_amended false mfConf resBoom H0 "p" wOursDir wBaseBlob
    (some "ours") (some "base") (some "theirs") rfl rfl
  rw [h]
  rfl

/-- C7: when all three modes are known and ours and theirs both changed the
blob relative to base but agree on the oid, mergeBlobs returns that shared oid
with the merged mode, invokes mergeFile (the TextMerger) not at all, and writes
no object. -/
theorem C7_shared_oid (mf : MergeFileArgs → MergeFileResult)
    (resolver : String → String → ResolverOutcome) (H : String → String → String)
    (path : String) (o b t : WalkerEntry) (ourName theirName baseName : Option String)
    (format : Option String) (markerSize : Option Nat) (dryRun : Option Bool)
    (hm : o.mode ≠ "" ∧ b.mode ≠ "" ∧ t.mode ≠ "")
    (hdo : modified (some o) (some b) = true)
    (hdt : modified (some t) (some b) = true)
    (heq : o.oid = t.oid) :
    mergeBlobs mf resolver H path (some o) (some b) (some t) ourName theirName baseName
        format markerSize dryRun
      = { result := .ok (some { mode := some (if b.mode = o.mode then t.mode else o.mode),
                                path := path, oid := o.oid, type := "blob" })
          writes := [], calls := [] } := by
  unfold mergeBlobs
  dsimp only
  rw [if_pos hm, if_pos heq]

/-- C7 witness: both sides changed base's blob to the same oid, theirs also
flipped the mode; the shared oid is returned with theirs' mode, no mergeFile
call, no write. -/
theorem C7_shared_oid_witness :
    mergeBlobs mfConf resBoom H0 "f" (some wOursBlob) (some wBaseBlob) (some wTheirsExec)
        (some "ours") (some "theirs") (some "base") none none none
      = { result := .ok (some { mode := some "100755", path := "f", oid := "o1", type := "blob" })
          writes := [], calls := [] } := by
  have h := C7_shared_oid mfConf resBoom H0 "f" wOursBlob wBaseBlob wTheirsExec
    (some "ours") (some "theirs") (some "base") none none none
    (by decide) (by decide) (by decide) rfl
  rw [h]
  rfl

/-- C6 counterexample: base mode 100644 equals ours' mode, theirs' mode is
100755, all three modes known, but the three oids are pairwise distinct so the
merge falls through to the textual path (here a clean merge): the returned
entry carries ours' mode 100644, not theirs' 100755, contradicting the claimed
universal mode rule. -/
theorem C6_counterexample :
    (mergeBlobs mfClean res0 H0 "f" (some wOursBlob) (some wBaseBlob) (some wTheirsExecConf)
        (some "ours") (some "theirs") (some "base") none none none).result
      = .ok (some { mode := some "100644", path := "f", oid := "blob:ABC", type := "blob" })
    ∧ wBaseBlob.mode = wOursBlob.mode
    ∧ wTheirsExecConf.mode = "100755"
    ∧ (some "100644" : Option String) ≠ some "100755" := by
  refine ⟨rfl, rfl, rfl, by simp⟩

/-- C6 amended: with base, ours and theirs modes all known, the merged mode is
theirs' when base's mode equals ours' and ours' otherwise in each of the three
trivial oid shortcuts (in particular mode inheritance: base 100644, ours
100644, theirs 100755, identical content oid on both sides gives 100755); when
the three oids are pairwise distinct and the merge falls through to the textual
path, any returned entry instead carries ours' mode. -/
theorem C6_amended (mf : MergeFileArgs → MergeFileResult)
    (resolver : String → String → ResolverOutcome) (H : String → String → String)
    (path : String) (o b t : WalkerEntry) (ourName theirName baseName : Option String)
    (format : Option String) (markerSize : Option Nat) (dryRun : Option Bool)
    (hm : o.mode ≠ "" ∧ b.mode ≠ "" ∧ t.mode ≠ "") :
    (o.oid = t.oid →
      mergeBlobs mf resolver H path (some o) (some b) (some t) ourName theirName baseName
          format markerSize dryRun
        = { result := .ok (some { mode := some (if b.mode = o.mode then t.mode else o.mode),
                                  path := path, oid := o.oid, type := "blob" })
            writes := [], calls := [] })
    ∧ (o.oid ≠ t.oid → o.oid = b.oid →
      mergeBlobs mf resolver H path (some o) (some b) (some t) ourName theirName baseName
          format markerSize dryRun
        = { result := .ok (some { mode := some (if b.mode = o.mode then t.mode else o.mode),
                                  path := path, oid := t.oid, type := "blob" })
            writes := [], calls := [] })
    ∧ (o.oid ≠ t.oid → o.oid ≠ b.oid → t.oid = b.oid →
      mergeBlobs mf resolver H path (some o) (some b) (some t) ourName theirName baseName
          format markerSize dryRun
        = { result := .ok (some { mode := some (if b.mode = o.mode then t.mode else o.mode),
                                  path := path, oid := o.oid, type := "blob" })
            writes := [], calls := [] })
    ∧ (o.oid ≠ t.oid → o.oid ≠ b.oid → t.oid ≠ b.oid →
      ∀ e : Entry,
        (mergeBlobs mf resolver H path (some o) (some b) (some t) ourName theirName baseName
            format markerSize dryRun).result = .ok (some e) →
        e.mode = some o.mode) := by
  refine ⟨?_, ?_, ?_, ?_⟩
  · intro h1
    unfold mergeBlobs
    dsimp only
    rw [if_pos hm, if_pos h1]
  · intro h1 h2
    unfold mergeBlobs
    dsimp only
    rw [if_pos hm, if_neg h1, if_pos h2]
  · intro h1 h2 h3
    unfold mergeBlobs
    dsimp only
    rw [if_pos hm, if_neg h1, if_neg h2, if_pos h3]
  · intro h1 h2 h3 e he
    rw [mergeBlobs_eq_rest mf resolver H path (some o) (some b) (some t) ourName theirName
      baseName format markerSize dryRun
      (by simp [trivialShortcutTaken, hm.1, hm.2.1, hm.2.2, h1, h2, h3])] at he
    have := mergeBlobsRest_mode mf resolver H path (some o) (some b) (some t) ourName theirName
      baseName format markerSize dryRun e he
    simpa using this

/-- C6 amended witness: the mode-inheritance instance (base 100644, ours
100644, theirs 100755, identical content oid on both sides) yields 100755. -/
theorem C6_amended_witness :
    mergeBlobs mfClean res0 H0 "f" (some wOursBlob) (some wBaseBlob) (some wTheirsExec)
        (some "ours") (some "theirs") (some "base") none none none
      = { result := .ok (some { mode := some "100755", path := "f", oid := "o1", type := "blob" })
          writes := [], calls := [] } := by
  have h := (C6_amended mfClean res0 H0 "f" wOursBlob wBaseBlob wTheirsExec
    (some "ours") (some "theirs") (some "base") none none none (by decide)).1 rfl
  rw [h]
  rfl

/-- C8: when the blob merge falls through to the textual path, the merge is not
clean, and the resolver returns empty or falsy text, mergeBlobs returns an
absent result (the file is deleted) and writes no blob object. -/
theorem C8_resolver_empty_deletes (mf : MergeFileArgs → MergeFileResult)
    (resolver : String → String → ResolverOutcome) (H : String → String → String)
    (path : String) (ours base theirs : Option WalkerEntry)
    (ourName theirName baseName : Option String)
    (format : Option String) (markerSize : Option Nat) (dryRun : Option Bool)
    (fp : String) (txt : Option String)
    (hfall : trivialShortcutTaken ours base theirs = false)
    (hclean : (mf (blobMergeArgs ours base theirs ourName theirName baseName
        format markerSize)).cleanMerge = false)
    (hfp : resolveFullpath base ours theirs = .ok fp)
    (hres : resolver (mf (blobMergeArgs ours base theirs ourName theirName baseName
        format markerSize)).mergedText fp = .returns txt)
    (htxt : truthyOptStr txt = false) :
    mergeBlobs mf resolver H path ours base theirs ourName theirName baseName
        format markerSize dryRun
      = { result := .ok none, writes := []
          calls := [blobMergeArgs ours base theirs ourName theirName baseName format markerSize] } := by
  rw [mergeBlobs_eq_rest mf resolver H path ours base theirs ourName theirName baseName
    format markerSize dryRun hfall]
  unfold mergeBlobsRest
  dsimp only
  simp [hclean, hfp, hres, htxt]

/-- C8 witness: a concrete conflicting triple whose resolver resolves to the
empty string; the path's result is absent and nothing is written. -/
theorem C8_resolver_empty_deletes_witness :
    mergeBlobs mfConf resEmpty H0 "f" (some wOursBlob) (some wBaseBlob) (some wTheirsBlob)
        (some "ours") (some "theirs") (some "base") none none none
      = { result := .ok none, writes := []
          calls := [blobMergeArgs (some wOursBlob) (some wBaseBlob) (some wTheirsBlob)
            (some "ours") (some "theirs") (some "base") none none] } :=
  C8_resolver_empty_deletes mfConf resEmpty H0 "f" (some wOursBlob) (some wBaseBlob)
    (some wTheirsBlob) (some "ours") (some "theirs") (some "base") none none none
    "f" (some "") (by decide) rfl rfl rfl rfl

/-- C9 counterexample: in the both-sides-added case (base absent) with an
explicitly supplied baseName, the map callback invokes mergeFile exactly once,
and that invocation carries no baseName, not the caller-supplied base label. -/
theorem C9_counterexample :
    (mapEntry true mfConf res0 H0 "f" (some wOursBlob) none (some wTheirsBlob)
        (some "ourL") (some "baseL") (some "theirL")).calls
      = [blobMergeArgs (some wOursBlob) none (some wTheirsBlob)
          (some "ourL") (some "theirL") none none none]
    ∧ (blobMergeArgs (some wOursBlob) none (some wTheirsBlob)
        (some "ourL") (some "theirL") none none none).baseName ≠ some "baseL" := by
  exact ⟨rfl, by simp [blobMergeArgs]⟩

/-- C9 amended: every mergeFile invocation made by the map callback receives
the three resolved texts and the caller-supplied ourName and theirName, but the
caller-supplied baseName reaches mergeFile only at the full three-way call site
(all three sides present); the both-sides-added and edited-versus-deleted call
sites pass no baseName, so the base label handed to the TextMerger is absent
there. -/
theorem C9_amended (dryRun : Bool) (mf : MergeFileArgs → MergeFileResult)
    (resolver : String → String → ResolverOutcome) (H : String → String → String)
    (fp : String) (ours base theirs : Option WalkerEntry)
    (ourName baseName theirName : Option String) :
    ∀ a ∈ (mapEntry dryRun mf resolver H fp ours base theirs ourName baseName theirName).calls,
      a = blobMergeArgs ours base theirs ourName theirName
            (if ours.isSome && base.isSome && theirs.isSome then baseName else none)
            none none := by
  intro a ha
  cases h1 : modified ours base <;> cases h2 : modified theirs base <;>
    simp only [mapEntry, h1, h2] at ha
  · rcases base with _ | b <;> simp at ha
  · rcases theirs with _ | t <;> simp at ha
  · rcases ours with _ | o <;> simp at ha
  · rcases ours with _ | o <;> rcases base with _ | b <;> rcases theirs with _ | t <;>
      dsimp only at ha
    · simp at ha
    · simp at ha
    · simp at ha
    · by_cases hty : t.type = "blob"
      · rw [if_pos hty] at ha
        rcases mergeBlobs_calls mf resolver H (basename fp) none (some b) (some t)
            ourName theirName none none none none with hc | hc
        · rw [hc] at ha
          simp at ha
        · rw [hc] at ha
          rw [List.mem_singleton.mp ha]
          rfl
      · rw [if_neg hty] at ha
        simp at ha
    · by_cases hto : o.type = "blob"
      · rw [if_pos hto] at ha
        simp at ha
      · rw [if_neg hto] at ha
        split at ha <;> simp at ha
    · by_cases hto : o.type = "blob"
      · rw [if_pos hto] at ha
        try dsimp only at ha
        by_cases hty : t.type = "blob"
        · rw [if_pos hty] at ha
          rcases mergeBlobs_calls mf resolver H (basename fp) (some o) none (some t)
              ourName theirName none none none none with hc | hc
          · rw [hc] at ha
            simp at ha
          · rw [hc] at ha
            rw [List.mem_singleton.mp ha]
            rfl
        · rw [if_neg hty] at ha
          simp at ha
      · rw [if_neg hto] at ha
        by_cases hto2 : o.type = "tree"
        · rw [if_pos hto2] at ha
          try dsimp only at ha
          split at ha <;> simp at ha
        · rw [if_neg hto2] at ha
          simp at ha
    · by_cases hto : o.type = "blob"
      · rw [if_pos hto] at ha
        rcases mergeBlobs_calls mf resolver H (basename fp) (some o) (some b) none
            ourName theirName none none none none with hc | hc
        · rw [hc] at ha
          simp at ha
        · rw [hc] at ha
          rw [List.mem_singleton.mp ha]
          rfl
      · rw [if_neg hto] at ha
        simp at ha
    · by_cases hty : o.type = "blob" ∧ b.type = "blob" ∧ t.type = "blob"
      · rw [if_pos hty] at ha
        rcases mergeBlobs_calls mf resolver H (basename fp) (some o) (some b) (some t)
            ourName theirName baseName none none none with hc | hc
        · rw [hc] at ha
          simp at ha
        · rw [hc] at ha
          rw [List.mem_singleton.mp ha]
          rfl
      · rw [if_neg hty] at ha
        simp at ha

/-- C9 amended witness: the both-sides-added invocation recorded by the map
callback matches the amended description (base label absent since base is
absent). -/
theorem C9_amended_witness :
    blobMergeArgs (some wOursBlob) none (some wTheirsBlob)
        (some "ourL") (some "theirL") none none none
      = blobMergeArgs (some wOursBlob) none (some wTheirsBlob)
          (some "ourL") (some "theirL")
          (if (some wOursBlob).isSome && (none : Option WalkerEntry).isSome
              && (some wTheirsBlob).isSome then some "baseL" else none)
          none none :=
  C9_amended true mfConf res0 H0 "f" (some wOursBlob) none (some wTheirsBlob)
    (some "ourL") (some "baseL") (some "theirL")
    (blobMergeArgs (some wOursBlob) none (some wTheirsBlob)
      (some "ourL") (some "theirL") none none none)
    (List.mem_singleton.mpr rfl)

/-- C1: the map callback never forwards mergeTree's dryRun to mergeBlobs, so a
blob merge that reaches the textual path persists its blob object for every
dryRun value (here a conflicting triple with a clean textual merge), while the
reduce callback does honor dryRun for tree objects (no tree write under
dryRun = true). -/
theorem C1_dryRun_blob_persisted :
    ∀ dryRun : Bool,
      (mapEntry dryRun mfClean res0 H0 "f" (some wOursBlob) (some wBaseBlob) (some wTheirsBlob)
          (some "ours") (some "base") (some "theirs")).writes
        = [{ otype := "blob", object := "ABC" }]
      ∧ (reduce H0 tto0 true (some c4parent) [some c4child]).2 = [] := by
  intro dr
  exact ⟨rfl, rfl⟩

/-- C3: mergeBlobs maps a resolver throw with the message "Aborted merge" to
MergeAbortedError and any other resolver throw to MergeNotSupportedError, and
the two error kinds are distinct constructors; however, the MergeAbortedError
source module's final statement assigns the static code 'MergeAbortedError' to
MergeNotSupportedError, so the two error classes end up sharing that code
string instead of carrying distinct codes. -/
theorem C3_abort_vs_not_supported :
    (mergeBlobs mfConf resAbort H0 "f" (some wOursBlob) (some wBaseBlob) (some wTheirsBlob)
        (some "ours") (some "theirs") (some "base") none none none).result
      = .error .aborted
    ∧ (mergeBlobs mfConf resBoom H0 "f" (some wOursBlob) (some wBaseBlob) (some wTheirsBlob)
        (some "ours") (some "theirs") (some "base") none none none).result
      = .error .notSupported
    ∧ MergeError.aborted ≠ MergeError.notSupported
    ∧ mergeNotSupportedStaticCode = mergeAbortedIntendedCode := by
  exact ⟨rfl, rfl, by decide, rfl⟩

end MergeTreeModel
